import Mathlib

/-!
Shallow embedding of the approval core of `approvals.py` (module
`mcp_approval`), together with theorems settling the specification's
claims about it.

The embedded functions are, in order:
  * `strContains`            — Python's substring test `needle in hay`;
  * `pyStr` / `pyRepr`       — Python's `str()` on JSON-compatible values
                               (containers print via `repr`, modelled for
                               strings without quote or escape characters);
  * `ToolRequest`            — the `ToolRequest` TypedDict;
  * `BaseApprovalConfig`, `ToolLevelApprovalConfig`,
    `CallLevelApprovalConfig` — the pydantic configuration models;
  * `call_with_timeout`, `call_approval_handler_with_timeout` — the
    timeout utilities, with the handler's possible behaviours reified as
    `HandlerOutcome` (returns a value before the deadline, never returns
    within the deadline, or raises before the deadline);
  * `ToolLevelApproval.check_and_approve_tool`,
    `CallLevelApproval.check_and_approve_tool` — the evaluators,
    instrumented with the number of approval-handler invocations and
    threaded through an arbitrary handler state so that statelessness
    claims are expressible.

String lowering uses ASCII `Char.toLower` per character for Python's
`str.lower()`; all configured keywords and examples are ASCII.
-/

namespace Approvals

/-- Python value model for tool-call arguments: the JSON-compatible
values admitted by `args: dict[str, Any]`. -/
inductive Value where
  | str (s : String)
  | int (n : Int)
  | bool (b : Bool)
  | pyNone
  | list (xs : List Value)
  | dict (xs : List (String × Value))

/-- A single-quote character, used by Python's `repr` of strings. -/
def squote : String := String.singleton (Char.ofNat 39)

mutual

/-- Python `repr()` on the value model. Strings are shown between single
quotes (accurate for strings without quotes or escapes), integers and
booleans and `None` as Python prints them, lists as `[a, b]`, and dicts
as `\x7ba: b\x7d` with repr-ed keys and values. -/
def pyRepr : Value → String
  | .str s => squote ++ s ++ squote
  | .int n => toString n
  | .bool b => if b then "True" else "False"
  | .pyNone => "None"
  | .list xs => "[" ++ String.intercalate ", " (pyReprList xs) ++ "]"
  | .dict xs => "\x7b" ++ String.intercalate ", " (pyReprDict xs) ++ "\x7d"

/-- Helper of `pyRepr`: repr of each list element. -/
def pyReprList : List Value → List String
  | [] => []
  | v :: vs => pyRepr v :: pyReprList vs

/-- Helper of `pyRepr`: repr of each dict entry as `key: value`. -/
def pyReprDict : List (String × Value) → List String
  | [] => []
  | (k, v) :: vs => (squote ++ k ++ squote ++ ": " ++ pyRepr v) :: pyReprDict vs

end

/-- Python `str()` on the value model: identity on strings, `repr`
otherwise (this is how `str` behaves on ints, bools, `None`, lists and
dicts). -/
def pyStr : Value → String
  | .str s => s
  | v => pyRepr v

/-- Python's substring containment `needle in hay` (true for the empty
needle, as in Python). -/
def strContains (hay needle : String) : Bool :=
  hay.data.tails.any fun t => needle.data.isPrefixOf t

/-- Python's `str.lower()`: lower-case every character (ASCII, matching
the configured keywords and examples). Character-list formulation of
`String.toLower`, written so the kernel can evaluate it on literals. -/
def strLower (s : String) : String :=
  String.mk (s.data.map Char.toLower)

/-- The `ToolRequest` TypedDict of `approvals.py` (lines 34-43): name,
description, argument mapping, and an optional metadata mapping. Python
dicts are modelled as association lists with unique keys; lookup is
exact string match, as in Python. -/
structure ToolRequest where
  name : String
  description : String
  args : List (String × Value)
  metadata : Option (List (String × Value)) := Option.none

/-- The pydantic `BaseApprovalConfig` (lines 51-74): an `int` timeout
field defaulting to 30 with no range constraint, and the
auto-approve-on-timeout flag defaulting to `False`. The
`approval_ui_handler` field is the pluggable port; evaluators below take
the resolved handler as an explicit argument. -/
structure BaseApprovalConfig where
  approval_timeout : Int := 30
  on_approval_timeout_auto_approve : Bool := false

/-- The default `dangerous_verbs` list of `ToolLevelApprovalConfig`
(lines 84-101). -/
def defaultDangerousVerbs : List String :=
  ["delete", "remove", "drop", "truncate", "destroy", "kill", "terminate",
   "shutdown", "reboot", "restart", "modify", "update", "execute", "run",
   "eval"]

/-- The pydantic `ToolLevelApprovalConfig` (lines 77-103). -/
structure ToolLevelApprovalConfig extends BaseApprovalConfig where
  dangerous_verbs : List String := defaultDangerousVerbs

/-- The pydantic `CallLevelApprovalConfig` (lines 106-119): adds the
declarative approval rules `\x7btool_name: \x7barg_name: [keywords]\x7d\x7d`,
modelled as an association list of association lists. -/
structure CallLevelApprovalConfig extends ToolLevelApprovalConfig where
  approval_rules : List (String × List (String × List String)) := []

/-- Construction of `BaseApprovalConfig` as pydantic performs it: the
`approval_timeout` field is declared `int` with no `gt`/`ge` constraint
(line 56), so any integer — positive or not — validates; there is no
failure path for an integer input, and the given value is stored
unchanged. `Option` represents pydantic's possible `ValidationError`. -/
def mkBaseApprovalConfig (approval_timeout : Int)
    (on_approval_timeout_auto_approve : Bool) : Option BaseApprovalConfig :=
  some { approval_timeout := approval_timeout,
         on_approval_timeout_auto_approve := on_approval_timeout_auto_approve }

/-- Construction of a `ToolRequest` as Python performs it: `ToolRequest`
is a `TypedDict` (line 34), which does no runtime validation whatsoever —
any name, including the empty or whitespace-only string, is accepted. -/
def mkToolRequest (name description : String) (args : List (String × Value)) :
    Option ToolRequest :=
  some { name := name, description := description, args := args }

/-- The Python value an approval handler can produce when it completes:
it is typed `Callable[[ToolRequest], bool]`, but Python does not enforce
the annotation, so `None` is also possible (and is what a handler that
falls off the end returns). -/
inductive RetVal where
  | noneVal
  | boolVal (b : Bool)
deriving DecidableEq

/-- Behaviour of one invocation of the approval handler under the
deadline of `call_with_timeout`: it either returns a value before the
deadline, never returns within the deadline, or raises an exception
before the deadline. -/
inductive HandlerOutcome where
  | completes (v : RetVal)
  | timesOut
  | raises
deriving DecidableEq

/-- The `call_with_timeout` utility (lines 468-497): awaits the callable
under `asyncio.timeout(timeout_seconds)`. Its `try` block catches only
`asyncio.TimeoutError`, returning `None` (here `.ok .noneVal`) in that
case; a completed call returns the callable's own value, and any other
exception raised by the callable propagates (here `.error ()`). The
`timeout_seconds` argument only scopes the deadline and feeds the log
line; it does not otherwise influence the result. -/
def call_with_timeout (outcome : HandlerOutcome) (timeout_seconds : Int) :
    Except Unit RetVal :=
  match outcome, timeout_seconds with
  | .completes v, _ => .ok v
  | .timesOut, _ => .ok .noneVal
  | .raises, _ => .error ()

/-- The `BaseApproval.call_approval_handler_with_timeout` method (lines
175-214): calls `call_with_timeout` (an exception from it propagates —
there is no `try` here), then treats a `None` result as timeout,
resolving it to `auto_approve_on_timeout`; any other result is returned
as the verdict. -/
def call_approval_handler_with_timeout (outcome : HandlerOutcome)
    (timeout_seconds : Int) (auto_approve_on_timeout : Bool) :
    Except Unit Bool :=
  match call_with_timeout outcome timeout_seconds with
  | .error e => .error e
  | .ok .noneVal => if auto_approve_on_timeout then .ok true else .ok false
  | .ok (.boolVal b) => .ok b

/-- The `contains_dangerous_words` method of `BaseApproval` (lines
163-173): `any(word in text for word in dangerous_words)`. -/
def contains_dangerous_words (text : String) (dangerous_words : List String) :
    Bool :=
  dangerous_words.any fun word => strContains text word

/-- The tool-level danger test computed inline by both evaluators (lines
252-259 and 317-324): lower-case the name, the description and every
configured verb, and test substring containment in either string. -/
def toolLevelDangerous (dangerous_verbs : List String) (req : ToolRequest) :
    Bool :=
  let tool_name := strLower req.name
  let tool_desc := strLower req.description
  let verbs := dangerous_verbs.map strLower
  contains_dangerous_words tool_name verbs ||
    contains_dangerous_words tool_desc verbs

/-- The `CallLevelApproval._check_arguments_dangerous` method (lines
351-387): look the request's name up in `approval_rules` — exact,
case-sensitive dict lookup on the UN-lowered name (line 360) — and, if a
rule set exists, test each configured argument that is present: the
argument's value is stringified and lowered, and each keyword (lowered)
is tested for substring containment. No rule entry means `False`. -/
def check_arguments_dangerous
    (approval_rules : List (String × List (String × List String)))
    (req : ToolRequest) : Bool :=
  match approval_rules.lookup req.name with
  | Option.none => false
  | some tool_rules =>
    tool_rules.any fun rule =>
      match req.args.lookup rule.1 with
      | Option.none => false
      | some v =>
        let arg_value := strLower (pyStr v)
        rule.2.any fun keyword => strContains arg_value (strLower keyword)

instance : DecidableEq (Except Unit Bool) := fun x y =>
  match x, y with
  | .ok a, .ok b =>
    if h : a = b then isTrue (by rw [h]) else isFalse (by simp [h])
  | .error a, .error b => isTrue (by cases a; cases b; rfl)
  | .ok _, .error _ => isFalse (by simp)
  | .error _, .ok _ => isFalse (by simp)

/-- Result of one evaluator run: the verdict (or a propagated handler
exception) together with the number of approval-handler invocations the
run performed, making "without invoking the Confirmation Port" and
"exactly once" expressible. -/
structure EvalResult where
  verdict : Except Unit Bool
  handlerCalls : Nat
deriving DecidableEq

/-- The `ToolLevelApproval.check_and_approve_tool` method (lines
243-279): auto-approve (`True`, no handler call) when neither the
lowered name nor the lowered description contains a lowered configured
verb; otherwise call the handler once through
`call_approval_handler_with_timeout` with the configured timeout and
auto-approve flag and return its result. The handler is threaded through
an arbitrary state `σ` (the evaluator object itself keeps no mutable
state between calls — it only reads `self.config` and the handler
reference). -/
def ToolLevelApproval.check_and_approve_tool {σ : Type}
    (cfg : ToolLevelApprovalConfig)
    (handler : σ → ToolRequest → HandlerOutcome × σ)
    (s : σ) (req : ToolRequest) : EvalResult × σ :=
  let is_dangerous := toolLevelDangerous cfg.dangerous_verbs req
  if !is_dangerous then
    (⟨.ok true, 0⟩, s)
  else
    let r := handler s req
    (⟨call_approval_handler_with_timeout r.1 cfg.approval_timeout
        cfg.on_approval_timeout_auto_approve, 1⟩, r.2)

/-- The `CallLevelApproval.check_and_approve_tool` method (lines
308-349): compute the tool-level danger test AND the argument danger
test — both are always evaluated, there is no short-circuit in the code
— auto-approve when neither flags the call, otherwise call the handler
once through `call_approval_handler_with_timeout` and return its
result. -/
def CallLevelApproval.check_and_approve_tool {σ : Type}
    (cfg : CallLevelApprovalConfig)
    (handler : σ → ToolRequest → HandlerOutcome × σ)
    (s : σ) (req : ToolRequest) : EvalResult × σ :=
  let is_tool_dangerous := toolLevelDangerous cfg.dangerous_verbs req
  let is_args_dangerous := check_arguments_dangerous cfg.approval_rules req
  if !is_tool_dangerous && !is_args_dangerous then
    (⟨.ok true, 0⟩, s)
  else
    let r := handler s req
    (⟨call_approval_handler_with_timeout r.1 cfg.approval_timeout
        cfg.on_approval_timeout_auto_approve, 1⟩, r.2)

/-- Tool-level evaluation against a stateless (pure, deterministic)
Confirmation Port: the general evaluator at state type `Unit`. -/
def evalToolLevel (cfg : ToolLevelApprovalConfig)
    (port : ToolRequest → HandlerOutcome) (req : ToolRequest) : EvalResult :=
  (ToolLevelApproval.check_and_approve_tool cfg
    (fun (_ : Unit) r => (port r, ())) () req).1

/-- Call-level evaluation against a stateless (pure, deterministic)
Confirmation Port: the general evaluator at state type `Unit`. -/
def evalCallLevel (cfg : CallLevelApprovalConfig)
    (port : ToolRequest → HandlerOutcome) (req : ToolRequest) : EvalResult :=
  (CallLevelApproval.check_and_approve_tool cfg
    (fun (_ : Unit) r => (port r, ())) () req).1

/-- C10: a Confirmation Port handler that returns `None` before the
deadline is indistinguishable from a timeout at the public interface:
`call_with_timeout` signals timeout by returning `None`, so a
`None`-returning handler takes the timeout branch of
`call_approval_handler_with_timeout` and — under the default
deny-on-timeout policy — receives the denial verdict rather than a
result of its own. -/
theorem C10_none_result_is_timeout :
    (∀ t : Int,
      call_with_timeout (HandlerOutcome.completes RetVal.noneVal) t =
        call_with_timeout HandlerOutcome.timesOut t) ∧
    (∀ (t : Int) (auto : Bool),
      call_approval_handler_with_timeout (HandlerOutcome.completes RetVal.noneVal)
          t auto =
        call_approval_handler_with_timeout HandlerOutcome.timesOut t auto) ∧
    (∀ t : Int,
      call_approval_handler_with_timeout (HandlerOutcome.completes RetVal.noneVal)
          t false = Except.ok false) :=
  ⟨fun _ => rfl, fun _ _ => rfl, fun _ => rfl⟩

/-- C4: tool-level evaluation auto-approves (verdict `true`, zero port
invocations) every descriptor whose lowered name and description contain
no configured keyword, and on every descriptor that does contain one it
invokes the Confirmation Port exactly once and returns the port's
verdict. -/
theorem C4_tool_level_evaluation :
    (∀ (cfg : ToolLevelApprovalConfig) (port : ToolRequest → HandlerOutcome)
        (req : ToolRequest),
      toolLevelDangerous cfg.dangerous_verbs req = false →
      evalToolLevel cfg port req = ⟨Except.ok true, 0⟩) ∧
    (∀ (cfg : ToolLevelApprovalConfig) (port : ToolRequest → HandlerOutcome)
        (req : ToolRequest) (b : Bool),
      toolLevelDangerous cfg.dangerous_verbs req = true →
      port req = HandlerOutcome.completes (RetVal.boolVal b) →
      evalToolLevel cfg port req = ⟨Except.ok b, 1⟩) := by
  constructor
  · intro cfg port req hSafe
    simp [evalToolLevel, ToolLevelApproval.check_and_approve_tool, hSafe]
  · intro cfg port req b hDang hPort
    simp [evalToolLevel, ToolLevelApproval.check_and_approve_tool, hDang, hPort,
      call_approval_handler_with_timeout, call_with_timeout]

/-- Witness for C4: `list_users` (no configured verb in name or
description) is auto-approved with zero port calls; `delete_file` is
escalated and returns the port's `true` verdict after exactly one port
call. -/
theorem C4_tool_level_evaluation_witness :
    evalToolLevel {} (fun _ => HandlerOutcome.timesOut)
        ⟨"list_users", "List users", [], Option.none⟩ =
      ⟨Except.ok true, 0⟩ ∧
    evalToolLevel {} (fun _ => HandlerOutcome.completes (RetVal.boolVal true))
        ⟨"delete_file", "Delete a file", [("path", Value.str "a.txt")],
          Option.none⟩ =
      ⟨Except.ok true, 1⟩ :=
  ⟨C4_tool_level_evaluation.1 {} (fun _ => HandlerOutcome.timesOut)
      ⟨"list_users", "List users", [], Option.none⟩ (by decide),
   C4_tool_level_evaluation.2 {}
      (fun _ => HandlerOutcome.completes (RetVal.boolVal true))
      ⟨"delete_file", "Delete a file", [("path", Value.str "a.txt")],
        Option.none⟩ true (by decide) rfl⟩

/-- C9: the lookup of the action name in `approval_rules` is an exact,
case-sensitive string match (the code looks up the un-lowered
`tool_request["name"]`): a descriptor whose name is not literally a
configured key — even one differing from a configured key only in
letter case — is never flagged at the call level. -/
theorem C9_rule_lookup_case_sensitive :
    ∀ (rules : List (String × List (String × List String)))
      (req : ToolRequest) (k : String) (kws : List (String × List String)),
      (k, kws) ∈ rules →
      req.name ≠ k →
      strLower req.name = strLower k →
      rules.lookup req.name = Option.none →
      check_arguments_dangerous rules req = false := by
  intro rules req k kws _ _ _ hLookup
  simp [check_arguments_dangerous, hLookup]

/-- Witness for C9: the rule key `Delete_file` and the descriptor name
`delete_file` differ only in case; the descriptor's `path` argument
would match the configured `/etc` keyword, yet the call is not
flagged. -/
theorem C9_rule_lookup_case_sensitive_witness :
    check_arguments_dangerous [("Delete_file", [("path", ["/etc"])])]
      ⟨"delete_file", "", [("path", Value.str "/etc")], Option.none⟩ = false :=
  C9_rule_lookup_case_sensitive [("Delete_file", [("path", ["/etc"])])]
    ⟨"delete_file", "", [("path", Value.str "/etc")], Option.none⟩
    "Delete_file" [("path", ["/etc"])] (by decide) (by decide) (by decide)
    (by decide)

/-- Counterexample to C5: a configuration with the non-positive deadline
0 constructs successfully (the pydantic field carries no range
constraint), and descriptors with an empty and a whitespace-only name
construct successfully (a TypedDict performs no runtime validation) —
construction does not fail on any of these invalid inputs. -/
theorem C5_counterexample :
    mkBaseApprovalConfig 0 false =
      some { approval_timeout := 0, on_approval_timeout_auto_approve := false } ∧
    mkToolRequest "" "List users" [] =
      some ⟨"", "List users", [], Option.none⟩ ∧
    mkToolRequest "   " "List users" [] =
      some ⟨"   ", "List users", [], Option.none⟩ :=
  ⟨rfl, rfl, rfl⟩

/-- C5 as amended: construction of the configuration and of a descriptor
never fails — any integer deadline (positive or not) and any name
(empty or not) are accepted and stored verbatim; no validation, and
also no silent defaulting, takes place. -/
theorem C5_amended_no_construction_validation :
    (∀ (t : Int) (auto : Bool),
      mkBaseApprovalConfig t auto =
        some { approval_timeout := t, on_approval_timeout_auto_approve := auto }) ∧
    (∀ (name description : String) (args : List (String × Value)),
      mkToolRequest name description args =
        some ⟨name, description, args, Option.none⟩) :=
  ⟨fun _ _ => rfl, fun _ _ _ => rfl⟩

/-- Counterexample to C1: deny-on-timeout is configurable, not a
non-configurable safety decision. With
`on_approval_timeout_auto_approve := true` (a constructor-reachable
configuration) and a Confirmation Port that never returns within the
30-second deadline, the escalated evaluation of `delete_file` resolves
to verdict `true` — auto-approval on timeout. -/
theorem C1_counterexample :
    evalToolLevel { on_approval_timeout_auto_approve := true }
        (fun _ => HandlerOutcome.timesOut)
        ⟨"delete_file", "Delete a file", [], Option.none⟩ =
      ⟨Except.ok true, 1⟩ := by decide

/-- C1 as amended: under the default deny-on-timeout policy
(`on_approval_timeout_auto_approve = false`), every escalated evaluation
in which the Confirmation Port does not return within the configured
deadline — whatever its value — resolves to verdict `false`, at both the
tool level and the call level; the policy is however configurable, with
`true` resolving timeouts to approval. -/
theorem C1_amended_default_deny_on_timeout :
    (∀ (cfg : ToolLevelApprovalConfig) (port : ToolRequest → HandlerOutcome)
        (req : ToolRequest),
      cfg.on_approval_timeout_auto_approve = false →
      port req = HandlerOutcome.timesOut →
      toolLevelDangerous cfg.dangerous_verbs req = true →
      evalToolLevel cfg port req = ⟨Except.ok false, 1⟩) ∧
    (∀ (cfg : CallLevelApprovalConfig) (port : ToolRequest → HandlerOutcome)
        (req : ToolRequest),
      cfg.on_approval_timeout_auto_approve = false →
      port req = HandlerOutcome.timesOut →
      (toolLevelDangerous cfg.dangerous_verbs req ||
        check_arguments_dangerous cfg.approval_rules req) = true →
      evalCallLevel cfg port req = ⟨Except.ok false, 1⟩) := by
  constructor
  · intro cfg port req hAuto hPort hDang
    simp [evalToolLevel, ToolLevelApproval.check_and_approve_tool, hDang, hPort,
      hAuto, call_approval_handler_with_timeout, call_with_timeout]
  · intro cfg port req hAuto hPort hDang
    rcases Bool.or_eq_true_iff.mp hDang with hT | hA
    · simp [evalCallLevel, CallLevelApproval.check_and_approve_tool, hT, hPort,
        hAuto, call_approval_handler_with_timeout, call_with_timeout]
    · simp [evalCallLevel, CallLevelApproval.check_and_approve_tool, hA, hPort,
        hAuto, call_approval_handler_with_timeout, call_with_timeout]

/-- Witness for the amended C1: with the default configuration (deadline
30, deny on timeout) and a never-answering port, the escalated
evaluations of `delete_file` deny at the tool level and — via an
argument rule on an otherwise safe name — at the call level. -/
theorem C1_amended_default_deny_on_timeout_witness :
    evalToolLevel {} (fun _ => HandlerOutcome.timesOut)
        ⟨"delete_file", "Delete a file", [], Option.none⟩ =
      ⟨Except.ok false, 1⟩ ∧
    evalCallLevel { approval_rules := [("write_file", [("path", ["/etc"])])] }
        (fun _ => HandlerOutcome.timesOut)
        ⟨"write_file", "", [("path", Value.str "/etc/passwd")], Option.none⟩ =
      ⟨Except.ok false, 1⟩ :=
  ⟨C1_amended_default_deny_on_timeout.1 {} (fun _ => HandlerOutcome.timesOut)
      ⟨"delete_file", "Delete a file", [], Option.none⟩ rfl rfl (by decide),
   C1_amended_default_deny_on_timeout.2
      { approval_rules := [("write_file", [("path", ["/etc"])])] }
      (fun _ => HandlerOutcome.timesOut)
      ⟨"write_file", "", [("path", Value.str "/etc/passwd")], Option.none⟩
      rfl rfl (by decide)⟩

/-- Counterexample to C2: an error raised by the Confirmation Port
before the deadline is NOT converted into a `false` verdict — it
propagates to the caller. `call_with_timeout` catches only
`asyncio.TimeoutError`, so the escalated evaluation of `delete_file`
with a raising port ends in a propagated exception, not in
`Except.ok false`. -/
theorem C2_counterexample :
    evalToolLevel {} (fun _ => HandlerOutcome.raises)
        ⟨"delete_file", "Delete a file", [], Option.none⟩ =
      ⟨Except.error (), 1⟩ := by decide

/-- C2 as amended: when the Confirmation Port handler raises before the
deadline, the escalated evaluation propagates the exception to the
caller (only `asyncio.TimeoutError` is caught and logged); the handler
error is neither swallowed nor turned into a `false` verdict. This
holds at both evaluation tiers. -/
theorem C2_amended_handler_error_propagates :
    (∀ (cfg : ToolLevelApprovalConfig) (port : ToolRequest → HandlerOutcome)
        (req : ToolRequest),
      port req = HandlerOutcome.raises →
      toolLevelDangerous cfg.dangerous_verbs req = true →
      evalToolLevel cfg port req = ⟨Except.error (), 1⟩) ∧
    (∀ (cfg : CallLevelApprovalConfig) (port : ToolRequest → HandlerOutcome)
        (req : ToolRequest),
      port req = HandlerOutcome.raises →
      (toolLevelDangerous cfg.dangerous_verbs req ||
        check_arguments_dangerous cfg.approval_rules req) = true →
      evalCallLevel cfg port req = ⟨Except.error (), 1⟩) := by
  constructor
  · intro cfg port req hPort hDang
    simp [evalToolLevel, ToolLevelApproval.check_and_approve_tool, hDang, hPort,
      call_approval_handler_with_timeout, call_with_timeout]
  · intro cfg port req hPort hDang
    rcases Bool.or_eq_true_iff.mp hDang with hT | hA
    · simp [evalCallLevel, CallLevelApproval.check_and_approve_tool, hT, hPort,
        call_approval_handler_with_timeout, call_with_timeout]
    · simp [evalCallLevel, CallLevelApproval.check_and_approve_tool, hA, hPort,
        call_approval_handler_with_timeout, call_with_timeout]

/-- Witness for the amended C2: with the default configurations and a
raising port, the escalated evaluations end in a propagated error at
both tiers. -/
theorem C2_amended_handler_error_propagates_witness :
    evalToolLevel {} (fun _ => HandlerOutcome.raises)
        ⟨"delete_file", "Delete a file", [], Option.none⟩ =
      ⟨Except.error (), 1⟩ ∧
    evalCallLevel { approval_rules := [("write_file", [("path", ["/etc"])])] }
        (fun _ => HandlerOutcome.raises)
        ⟨"write_file", "", [("path", Value.str "/etc/passwd")], Option.none⟩ =
      ⟨Except.error (), 1⟩ :=
  ⟨C2_amended_handler_error_propagates.1 {} (fun _ => HandlerOutcome.raises)
      ⟨"delete_file", "Delete a file", [], Option.none⟩ rfl (by decide),
   C2_amended_handler_error_propagates.2
      { approval_rules := [("write_file", [("path", ["/etc"])])] }
      (fun _ => HandlerOutcome.raises)
      ⟨"write_file", "", [("path", Value.str "/etc/passwd")], Option.none⟩
      rfl (by decide)⟩

/-- Counterexample to C3: there is no wildcard handling in
`_check_arguments_dangerous` — `*` is matched like any other keyword,
as a substring of the stringified value. With the rule
`list_files.path = ["*"]` and the argument `path = "hello"` (key
present, value free of asterisks), the call is not flagged and the
call-level evaluation auto-approves without consulting the port. -/
theorem C3_counterexample :
    check_arguments_dangerous [("list_files", [("path", ["*"])])]
        ⟨"list_files", "", [("path", Value.str "hello")], Option.none⟩ = false ∧
    evalCallLevel { approval_rules := [("list_files", [("path", ["*"])])] }
        (fun _ => HandlerOutcome.completes (RetVal.boolVal false))
        ⟨"list_files", "", [("path", Value.str "hello")], Option.none⟩ =
      ⟨Except.ok true, 0⟩ :=
  ⟨by decide, by decide⟩

/-- C3 as amended: a rule mapping argument `X` to the keyword list
`["*"]` flags a call exactly when the stringified, lower-cased value of
`X` contains the character `*` as a substring — the literal `*` is an
ordinary keyword, not an unconditional wildcard. -/
theorem C3_amended_star_is_literal_keyword :
    ∀ (name X : String) (v : Value) (req : ToolRequest),
      req.name = name →
      req.args.lookup X = some v →
      check_arguments_dangerous [(name, [(X, ["*"])])] req =
        strContains (strLower (pyStr v)) "*" := by
  intro name X v req hName hArg
  subst hName
  have hstar : strLower "*" = "*" := rfl
  simp [check_arguments_dangerous, List.lookup, hArg, hstar]

/-- Witness for the amended C3: with the same rule, the value `a*b`
(containing an asterisk) is flagged and the value `hello` is not, each
equal to the literal substring test. -/
theorem C3_amended_star_is_literal_keyword_witness :
    check_arguments_dangerous [("list_files", [("path", ["*"])])]
        ⟨"list_files", "", [("path", Value.str "a*b")], Option.none⟩ =
      strContains (strLower (pyStr (Value.str "a*b"))) "*" ∧
    check_arguments_dangerous [("list_files", [("path", ["*"])])]
        ⟨"list_files", "", [("path", Value.str "hello")], Option.none⟩ =
      strContains (strLower (pyStr (Value.str "hello"))) "*" :=
  ⟨C3_amended_star_is_literal_keyword "list_files" "path" (Value.str "a*b")
      ⟨"list_files", "", [("path", Value.str "a*b")], Option.none⟩ rfl rfl,
   C3_amended_star_is_literal_keyword "list_files" "path" (Value.str "hello")
      ⟨"list_files", "", [("path", Value.str "hello")], Option.none⟩ rfl rfl⟩

/-- Counterexample to C6: in call-level evaluation of a tool-level
sensitive descriptor the verdict is NOT independent of the arguments —
the Confirmation Port receives the full descriptor, arguments included.
Against the same deterministic port (one that answers according to
whether the key `x` is present), two `delete_file` descriptors differing
only in their arguments receive different verdicts. -/
theorem C6_counterexample :
    (evalCallLevel {}
        (fun r =>
          HandlerOutcome.completes (RetVal.boolVal (r.args.lookup "x").isSome))
        ⟨"delete_file", "", [], Option.none⟩).verdict = Except.ok false ∧
    (evalCallLevel {}
        (fun r =>
          HandlerOutcome.completes (RetVal.boolVal (r.args.lookup "x").isSome))
        ⟨"delete_file", "", [("x", Value.str "1")], Option.none⟩).verdict =
      Except.ok true :=
  ⟨by decide, by decide⟩

/-- C6 as amended: if the tool-level check flags the call, the DECISION
to escalate is independent of the arguments and of the configured
argument rules — the port is invoked exactly once whatever the
arguments are and whatever `approval_rules` holds; the final verdict,
however, comes from the port, which sees the full descriptor including
its arguments (and the argument check itself is still computed — the
code has no short-circuit). -/
theorem C6_amended_tool_flag_forces_escalation :
    ∀ (cfg : CallLevelApprovalConfig) (port : ToolRequest → HandlerOutcome)
      (req : ToolRequest),
      toolLevelDangerous cfg.dangerous_verbs req = true →
      (∀ args2 : List (String × Value),
        (evalCallLevel cfg port { req with args := args2 }).handlerCalls = 1) ∧
      (∀ rules2 : List (String × List (String × List String)),
        (evalCallLevel { cfg with approval_rules := rules2 } port
            req).handlerCalls = 1) := by
  intro cfg port req hT
  obtain ⟨n, d, a, m⟩ := req
  constructor
  · intro args2
    simp only [toolLevelDangerous] at hT
    simp [evalCallLevel, CallLevelApproval.check_and_approve_tool,
      toolLevelDangerous, hT]
  · intro rules2
    simp only [toolLevelDangerous] at hT
    simp [evalCallLevel, CallLevelApproval.check_and_approve_tool,
      toolLevelDangerous, hT]

/-- Witness for the amended C6: a tool-level dangerous `delete_file`
call is escalated (one port invocation) after replacing its arguments,
and likewise after replacing the rule set. -/
theorem C6_amended_tool_flag_forces_escalation_witness :
    (evalCallLevel {}
        (fun _ => HandlerOutcome.completes (RetVal.boolVal true))
        ⟨"delete_file", "", [("path", Value.str "x")], Option.none⟩).handlerCalls
      = 1 ∧
    (evalCallLevel { approval_rules := [("other", [("a", ["b"])])] }
        (fun _ => HandlerOutcome.completes (RetVal.boolVal true))
        ⟨"delete_file", "", [], Option.none⟩).handlerCalls = 1 :=
  ⟨(C6_amended_tool_flag_forces_escalation {}
      (fun _ => HandlerOutcome.completes (RetVal.boolVal true))
      ⟨"delete_file", "", [], Option.none⟩ (by decide)).1
      [("path", Value.str "x")],
   (C6_amended_tool_flag_forces_escalation {}
      (fun _ => HandlerOutcome.completes (RetVal.boolVal true))
      ⟨"delete_file", "", [], Option.none⟩ (by decide)).2
      [("other", [("a", ["b"])])]⟩

/-- C7: only declared rules apply at the call level. An action name with
no entry in `approval_rules` is never flagged by the argument check;
with a declared single-argument keyword rule and that argument present,
the flag equals the substring test of the configured keywords against
the stringified lower-cased value; and for a descriptor that is not
tool-level sensitive, the call-level evaluation auto-permits (verdict
`true`, zero port calls) exactly when the argument check is false and
escalates (one port call) exactly when it is true. -/
theorem C7_declared_argument_rules :
    (∀ (rules : List (String × List (String × List String)))
        (req : ToolRequest),
      rules.lookup req.name = Option.none →
      check_arguments_dangerous rules req = false) ∧
    (∀ (rules : List (String × List (String × List String)))
        (req : ToolRequest) (X : String) (kws : List String) (v : Value),
      rules.lookup req.name = some [(X, kws)] →
      req.args.lookup X = some v →
      check_arguments_dangerous rules req =
        kws.any fun kw => strContains (strLower (pyStr v)) (strLower kw)) ∧
    (∀ (cfg : CallLevelApprovalConfig) (port : ToolRequest → HandlerOutcome)
        (req : ToolRequest),
      toolLevelDangerous cfg.dangerous_verbs req = false →
      (check_arguments_dangerous cfg.approval_rules req = false →
        evalCallLevel cfg port req = ⟨Except.ok true, 0⟩) ∧
      (check_arguments_dangerous cfg.approval_rules req = true →
        (evalCallLevel cfg port req).handlerCalls = 1)) := by
  refine ⟨?_, ?_, ?_⟩
  · intro rules req h
    simp [check_arguments_dangerous, h]
  · intro rules req X kws v hRule hArg
    simp [check_arguments_dangerous, hRule, hArg]
  · intro cfg port req hSafe
    constructor
    · intro hArgs
      simp [evalCallLevel, CallLevelApproval.check_and_approve_tool, hSafe,
        hArgs]
    · intro hArgs
      simp [evalCallLevel, CallLevelApproval.check_and_approve_tool, hSafe,
        hArgs]

/-- Witness for C7: `other_tool` has no rule entry and is not flagged;
`write_file` with rule `path = ["/etc"]` is flagged on `/etc/passwd`
(escalated, one port call) and not on `/tmp/note.txt` (auto-permitted
with verdict `true` and zero port calls). -/
theorem C7_declared_argument_rules_witness :
    check_arguments_dangerous [("write_file", [("path", ["/etc"])])]
        ⟨"other_tool", "", [("path", Value.str "/etc/passwd")], Option.none⟩ =
      false ∧
    check_arguments_dangerous [("write_file", [("path", ["/etc"])])]
        ⟨"write_file", "", [("path", Value.str "/etc/passwd")], Option.none⟩ =
      (["/etc"].any fun kw =>
        strContains (strLower (pyStr (Value.str "/etc/passwd")))
          (strLower kw)) ∧
    (evalCallLevel { approval_rules := [("write_file", [("path", ["/etc"])])] }
        (fun _ => HandlerOutcome.completes (RetVal.boolVal true))
        ⟨"write_file", "", [("path", Value.str "/etc/passwd")],
          Option.none⟩).handlerCalls = 1 ∧
    evalCallLevel { approval_rules := [("write_file", [("path", ["/etc"])])] }
        (fun _ => HandlerOutcome.completes (RetVal.boolVal true))
        ⟨"write_file", "", [("path", Value.str "/tmp/note.txt")], Option.none⟩ =
      ⟨Except.ok true, 0⟩ :=
  ⟨C7_declared_argument_rules.1 [("write_file", [("path", ["/etc"])])]
      ⟨"other_tool", "", [("path", Value.str "/etc/passwd")], Option.none⟩
      (by decide),
   C7_declared_argument_rules.2.1 [("write_file", [("path", ["/etc"])])]
      ⟨"write_file", "", [("path", Value.str "/etc/passwd")], Option.none⟩
      "path" ["/etc"] (Value.str "/etc/passwd") (by decide) rfl,
   (C7_declared_argument_rules.2.2
      { approval_rules := [("write_file", [("path", ["/etc"])])] }
      (fun _ => HandlerOutcome.completes (RetVal.boolVal true))
      ⟨"write_file", "", [("path", Value.str "/etc/passwd")], Option.none⟩
      (by decide)).2 (by decide),
   (C7_declared_argument_rules.2.2
      { approval_rules := [("write_file", [("path", ["/etc"])])] }
      (fun _ => HandlerOutcome.completes (RetVal.boolVal true))
      ⟨"write_file", "", [("path", Value.str "/tmp/note.txt")], Option.none⟩
      (by decide)).1 (by decide)⟩

/-- C8: the evaluators are deterministic and stateless. They are modelled
threaded through an arbitrary handler state `σ` — the only state in
sight, since the Python objects never mutate themselves — and for any
handler whose answers do not depend on that state (a deterministic,
non-interactive Confirmation Port), evaluating the same descriptor a
second time, from the state left behind by the first evaluation, yields
the same result at both tiers. -/
theorem C8_deterministic_port_idempotent :
    ∀ (σ : Type) (handler : σ → ToolRequest → HandlerOutcome × σ),
      (∀ (s t : σ) (r : ToolRequest), (handler s r).1 = (handler t r).1) →
      (∀ (cfg : ToolLevelApprovalConfig) (s : σ) (req : ToolRequest),
        (ToolLevelApproval.check_and_approve_tool cfg handler
            (ToolLevelApproval.check_and_approve_tool cfg handler s req).2
            req).1 =
          (ToolLevelApproval.check_and_approve_tool cfg handler s req).1) ∧
      (∀ (cfg : CallLevelApprovalConfig) (s : σ) (req : ToolRequest),
        (CallLevelApproval.check_and_approve_tool cfg handler
            (CallLevelApproval.check_and_approve_tool cfg handler s req).2
            req).1 =
          (CallLevelApproval.check_and_approve_tool cfg handler s req).1) := by
  intro σ handler hdet
  constructor
  · intro cfg s req
    cases hD : toolLevelDangerous cfg.dangerous_verbs req with
    | false => simp [ToolLevelApproval.check_and_approve_tool, hD]
    | true =>
      simp only [ToolLevelApproval.check_and_approve_tool, hD, Bool.not_true,
        Bool.false_eq_true, if_false]
      rw [hdet _ s req]
  · intro cfg s req
    cases hD : toolLevelDangerous cfg.dangerous_verbs req with
    | false =>
      cases hA : check_arguments_dangerous cfg.approval_rules req with
      | false => simp [CallLevelApproval.check_and_approve_tool, hD, hA]
      | true =>
        simp only [CallLevelApproval.check_and_approve_tool, hD, hA,
          Bool.not_true, Bool.not_false, Bool.true_and, Bool.false_eq_true,
          if_false]
        rw [hdet _ s req]
    | true =>
      simp only [CallLevelApproval.check_and_approve_tool, hD, Bool.not_true,
        Bool.false_and, Bool.false_eq_true, if_false]
      rw [hdet _ s req]

/-- Witness for C8: a concrete constant (hence state-independent)
handler over state `Unit`, with the default configurations and the
`delete_file` descriptor, yields the same result on the repeated
evaluation at both tiers. -/
theorem C8_deterministic_port_idempotent_witness :
    (ToolLevelApproval.check_and_approve_tool {}
        (fun (_ : Unit) _ => (HandlerOutcome.completes (RetVal.boolVal true), ()))
        (ToolLevelApproval.check_and_approve_tool {}
          (fun (_ : Unit) _ =>
            (HandlerOutcome.completes (RetVal.boolVal true), ()))
          () ⟨"delete_file", "", [], Option.none⟩).2
        ⟨"delete_file", "", [], Option.none⟩).1 =
      (ToolLevelApproval.check_and_approve_tool {}
        (fun (_ : Unit) _ => (HandlerOutcome.completes (RetVal.boolVal true), ()))
        () ⟨"delete_file", "", [], Option.none⟩).1 ∧
    (CallLevelApproval.check_and_approve_tool {}
        (fun (_ : Unit) _ => (HandlerOutcome.completes (RetVal.boolVal true), ()))
        (CallLevelApproval.check_and_approve_tool {}
          (fun (_ : Unit) _ =>
            (HandlerOutcome.completes (RetVal.boolVal true), ()))
          () ⟨"delete_file", "", [], Option.none⟩).2
        ⟨"delete_file", "", [], Option.none⟩).1 =
      (CallLevelApproval.check_and_approve_tool {}
        (fun (_ : Unit) _ => (HandlerOutcome.completes (RetVal.boolVal true), ()))
        () ⟨"delete_file", "", [], Option.none⟩).1 :=
  ⟨(C8_deterministic_port_idempotent Unit
      (fun (_ : Unit) _ => (HandlerOutcome.completes (RetVal.boolVal true), ()))
      (fun _ _ _ => rfl)).1 {} () ⟨"delete_file", "", [], Option.none⟩,
   (C8_deterministic_port_idempotent Unit
      (fun (_ : Unit) _ => (HandlerOutcome.completes (RetVal.boolVal true), ()))
      (fun _ _ _ => rfl)).2 {} () ⟨"delete_file", "", [], Option.none⟩⟩

end Approvals
